import Mathlib

/-!
Verification development for the OGraf template editor
(src/models/OGrafTemplate.js and its callers).

The JavaScript source is shallowly embedded: pure string transformations
become Lean functions over `List Char`, the mutable `OGrafTemplate` object
becomes a structure with explicit state passing, and the generated web
component's asynchronous lifecycle becomes a small-step machine whose
pending `setTimeout` callbacks are an explicit timer list.
-/

namespace OGraf

/-! ## Character classes of the regexes in OGrafTemplate.js -/

/-- JS regex class `\w`, that is `[A-Za-z0-9_]`. -/
def isWordChar (c : Char) : Bool := c.isAlphanum || c == '_'

/-- JS regex class `[a-z0-9]`. -/
def isLowerDigit (c : Char) : Bool := c.isLower || c.isDigit

/-- The characters `\x7b` and `\x7d` (curly braces) used by the placeholder
syntax, given by code point. -/
def lbrace : Char := Char.ofNat 123

/-- Closing curly brace, by code point. -/
def rbrace : Char := Char.ofNat 125

/-! ## kebabCase (OGrafTemplate.js lines 340-342)

`str.replace(/([a-z0-9]|(?=[A-Z]))([A-Z])/g, '$1-$2').toLowerCase()`.
The scanner below mirrors the leftmost-match behaviour of the global
replace: at each position, either a `[a-z0-9]` character directly followed
by an `[A-Z]` character matches (both consumed, hyphen inserted between),
or — via the empty lookahead alternative — a single `[A-Z]` character
matches (consumed, hyphen inserted before it). -/

def kebabChars : List Char → List Char
  | [] => []
  | [c] => if c.isUpper then ['-', c] else [c]
  | c :: d :: rest =>
    if isLowerDigit c && d.isUpper then c :: '-' :: d :: kebabChars rest
    else if c.isUpper then '-' :: c :: kebabChars (d :: rest)
    else c :: kebabChars (d :: rest)

/-- OGrafTemplate.js `kebabCase`. -/
def kebabCase (s : String) : String :=
  String.mk ((kebabChars s.data).map Char.toLower)

/-- Modelled from the spec: insert a hyphen before each uppercase letter
that is preceded by a lowercase letter or digit, then lowercase the whole
string. `prev` is the preceding character. -/
def specHyphenate (prev : Char) : List Char → List Char
  | [] => []
  | c :: rest =>
    if c.isUpper && isLowerDigit prev then '-' :: c :: specHyphenate c rest
    else c :: specHyphenate c rest

/-- Modelled from the spec: the reference kebab-case algorithm of the
specification text (the first character has no predecessor and never
receives a hyphen). -/
def specKebabCase (s : String) : String :=
  match s.data with
  | [] => ""
  | c :: rest => String.mk ((c :: specHyphenate c rest).map Char.toLower)

/-- Amended reference: insert a hyphen before every uppercase letter,
regardless of what precedes it. -/
def dashEveryUpper : List Char → List Char
  | [] => []
  | c :: rest =>
    if c.isUpper then '-' :: c :: dashEveryUpper rest
    else c :: dashEveryUpper rest

/-! ## toCamelCase (OGrafTemplate.js lines 586-589) -/

/-- First replace of `toCamelCase`: the global replace of the pattern
"dash followed by a captured `[a-z]`" with the captured letter uppercased. -/
def camelChars : List Char → List Char
  | [] => []
  | '-' :: c :: rest =>
    if c.isLower then c.toUpper :: camelChars rest
    else '-' :: camelChars (c :: rest)
  | c :: rest => c :: camelChars rest

/-- OGrafTemplate.js `toCamelCase`: the replace above followed by
`replace(/^[a-z]/, (g) => g.toUpperCase())`. -/
def toCamelCase (s : String) : String :=
  match camelChars s.data with
  | [] => ""
  | c :: rest => String.mk ((if c.isLower then c.toUpper else c) :: rest)

/-! ## interpolateContent (generated runtime, OGrafTemplate.js lines 566-572)

`content.replace(/\{\{(\w+)\}\}/g, (match, key) => { const value =
this.data[key] || match; return value; })`.  The scanner consumes fuel one
unit per inspected position; with fuel at least the length of the input the
fuel never runs out, and each step either copies one character or replaces
one complete `\x7b\x7b word \x7d\x7d` placeholder. -/

/-- Greedy `\w+`: maximal leading run of word characters and the remainder. -/
def takeWord : List Char → List Char × List Char
  | [] => ([], [])
  | c :: rest =>
    if isWordChar c then
      let p := takeWord rest
      (c :: p.1, p.2)
    else ([], c :: rest)

/-- Fueled scanner for the global placeholder replace, parameterized by the
function applied to (key, whole match). -/
def interpGo (resolve : String → String → String) : Nat → List Char → List Char
  | 0, l => l
  | _ + 1, [] => []
  | fuel + 1, c :: rest =>
    if c = lbrace then
      match rest with
      | c2 :: rest2 =>
        if c2 = lbrace then
          match takeWord rest2 with
          | (w, d :: d2 :: rest3) =>
            if d = rbrace && d2 = rbrace && !w.isEmpty then
              (resolve (String.mk w)
                  (String.mk (lbrace :: lbrace :: (w ++ [rbrace, rbrace])))).data
                ++ interpGo resolve fuel rest3
            else c :: interpGo resolve fuel rest
          | _ => c :: interpGo resolve fuel rest
        else c :: interpGo resolve fuel rest
      | [] => [c]
    else c :: interpGo resolve fuel rest

/-- Run the placeholder replace over a whole string. -/
def interpolateWith (resolve : String → String → String) (content : String) : String :=
  String.mk (interpGo resolve content.data.length content.data)

/-- The replacement callback of the source: `this.data[key] || match`.
A missing key yields `undefined` and an empty-string value is falsy, so in
both cases the whole match is returned. -/
def resolveJs (data : String → Option String) (key whole : String) : String :=
  match data key with
  | some v => if v = "" then whole else v
  | none => whole

/-- The generated runtime's `interpolateContent`, with the data map passed
explicitly. -/
def interpolateContent (data : String → Option String) (content : String) : String :=
  interpolateWith (resolveJs data) content

/-- Modelled from the spec: replace a placeholder with the data map's value
for the key whenever the key is present (even when the value is empty), and
leave the placeholder unchanged exactly when the key is absent. -/
def resolveSpec (data : String → Option String) (key whole : String) : String :=
  match data key with
  | some v => v
  | none => whole

/-- Modelled from the spec: the Content Interpolator of the specification
text, over the same placeholder syntax. -/
def interpolateSpecModel (data : String → Option String) (content : String) : String :=
  interpolateWith (resolveSpec data) content

/-- Restriction of a data map to its non-empty values: keys mapped to the
empty string are treated as absent. -/
def truthyData (data : String → Option String) : String → Option String :=
  fun k =>
    match data k with
    | some v => if v = "" then none else some v
    | none => none

/-! ## Template data model (OGrafTemplate.js lines 1-24)

JS objects used as maps (`schema.properties`, the runtime data map) are
association lists with JS-object update semantics: assignment overwrites an
existing key in place and appends a fresh key; key order is insertion
order. -/

/-- One entry of `manifest.schema.properties`.  All property values used by
the presets and the editor UI are strings. -/
structure PropSchema where
  type : String
  title : String
  default : String
deriving DecidableEq

/-- One entry of `manifest.customActions`. -/
structure CustomAction where
  id : String
  name : String
  description : String
deriving DecidableEq

/-- The OGraf manifest object built by the constructor (lines 3-20) and the
preset setup methods.  `stepCount` and `customActions` are absent on a
fresh manifest and only added by the setups, hence optional. -/
structure Manifest where
  schemaUrl : String
  id : String
  version : String
  name : String
  description : String
  authorName : String
  authorEmail : String
  main : String
  schemaProperties : List (String × PropSchema)
  supportsRealTime : Bool
  supportsNonRealTime : Bool
  stepCount : Option Nat
  customActions : Option (List CustomAction)
deriving DecidableEq

/-- A canvas element.  Besides `id` every field is optional, mirroring JS
object fields that may be absent: `addElement` spreads a caller-supplied
spec over a generated id, so any field other than `id` may be missing.
`style` is the camelCase style map in insertion order. -/
structure Element where
  id : String
  type : Option String
  x : Option Int
  y : Option Int
  width : Option Int
  height : Option Int
  content : Option String
  style : Option (List (String × String))
deriving DecidableEq

/-- The element spec passed to `addElement`/`updateElement`: any subset of
the element fields, including optionally an `id`. -/
structure ElementSpec where
  id : Option String := none
  type : Option String := none
  x : Option Int := none
  y : Option Int := none
  width : Option Int := none
  height : Option Int := none
  content : Option String := none
  style : Option (List (String × String)) := none
deriving DecidableEq

/-- Animation settings, created by PropertyPanel.js (lines 75-90) always as
a full six-field object in this key order. -/
structure AnimationSettings where
  slideInDuration : Nat
  slideOutDuration : Nat
  slideInType : String
  slideOutType : String
  slideInDirection : String
  slideOutDirection : String
deriving DecidableEq

/-- The mutable `OGrafTemplate` object.  `webComponent` is the cached
generated artifact text (`null` until generated); `animationSettings` is
absent until PropertyPanel initializes it. -/
structure OGrafTemplate where
  manifest : Manifest
  elements : List Element
  webComponent : Option String
  animationSettings : Option AnimationSettings
deriving DecidableEq

/-- The manifest assigned by the constructor (lines 3-20). -/
def defaultManifest : Manifest :=
  { schemaUrl := "https://ograf.ebu.io/v1/specification/json-schemas/graphics/schema.json"
    id := ""
    version := "1.0.0"
    name := ""
    description := ""
    authorName := "OGraf Editor"
    authorEmail := ""
    main := "template.mjs"
    schemaProperties := []
    supportsRealTime := true
    supportsNonRealTime := false
    stepCount := none
    customActions := none }

/-- `new OGrafTemplate()` (lines 2-24). -/
def newTemplate : OGrafTemplate :=
  { manifest := defaultManifest
    elements := []
    webComponent := none
    animationSettings := none }

/-! ## Presets (OGrafTemplate.js lines 49-294) -/

/-- `setupLowerThird` (lines 49-123). -/
def setupLowerThird (t : OGrafTemplate) : OGrafTemplate :=
  { t with
    manifest :=
      { t.manifest with
        stepCount := some 1
        customActions := some
          [⟨"slideIn", "Slide In", "Animate the lower third sliding in from the left"⟩,
           ⟨"slideOut", "Slide Out", "Animate the lower third sliding out to the left"⟩]
        schemaProperties :=
          [("name", ⟨"string", "Name", "John Doe"⟩),
           ("title", ⟨"string", "Title", "Reporter"⟩)] }
    elements :=
      [{ id := "background", type := some "rect", x := some 50, y := some 450,
         width := some 400, height := some 80, content := none,
         style := some [("backgroundColor", "rgba(0, 120, 204, 0.9)"),
                        ("borderRadius", "4px")] },
       { id := "name", type := some "text", x := some 70, y := some 460,
         width := some 360, height := some 30,
         content := some "\x7b\x7bname\x7d\x7d",
         style := some [("fontSize", "24px"), ("fontFamily", "Arial, sans-serif"),
                        ("fontWeight", "bold"), ("color", "#ffffff"),
                        ("textAlign", "left")] },
       { id := "title", type := some "text", x := some 70, y := some 490,
         width := some 360, height := some 25,
         content := some "\x7b\x7btitle\x7d\x7d",
         style := some [("fontSize", "16px"), ("fontFamily", "Arial, sans-serif"),
                        ("color", "#ffffff"), ("textAlign", "left")] }] }

/-- `setupTitle` (lines 125-199). -/
def setupTitle (t : OGrafTemplate) : OGrafTemplate :=
  { t with
    manifest :=
      { t.manifest with
        stepCount := some 1
        customActions := some
          [⟨"slideIn", "Slide In", "Animate the title sliding in"⟩,
           ⟨"slideOut", "Slide Out", "Animate the title sliding out"⟩]
        schemaProperties :=
          [("title", ⟨"string", "Title Text", "Breaking News"⟩),
           ("subtitle", ⟨"string", "Subtitle", ""⟩)] }
    elements :=
      [{ id := "background", type := some "rect", x := some 100, y := some 200,
         width := some 600, height := some 120, content := none,
         style := some [("backgroundColor", "rgba(220, 20, 20, 0.9)"),
                        ("borderRadius", "8px")] },
       { id := "title", type := some "text", x := some 120, y := some 220,
         width := some 560, height := some 50,
         content := some "\x7b\x7btitle\x7d\x7d",
         style := some [("fontSize", "36px"), ("fontFamily", "Arial, sans-serif"),
                        ("fontWeight", "bold"), ("color", "#ffffff"),
                        ("textAlign", "center")] },
       { id := "subtitle", type := some "text", x := some 120, y := some 270,
         width := some 560, height := some 30,
         content := some "\x7b\x7bsubtitle\x7d\x7d",
         style := some [("fontSize", "18px"), ("fontFamily", "Arial, sans-serif"),
                        ("color", "#ffffff"), ("textAlign", "center")] }] }

/-- `setupBug` (lines 201-251). -/
def setupBug (t : OGrafTemplate) : OGrafTemplate :=
  { t with
    manifest :=
      { t.manifest with
        stepCount := some 1
        customActions := some
          [⟨"slideIn", "Slide In", "Animate the bug sliding in"⟩,
           ⟨"slideOut", "Slide Out", "Animate the bug sliding out"⟩]
        schemaProperties := [("logo", ⟨"string", "Logo URL", ""⟩)] }
    elements :=
      [{ id := "background", type := some "circle", x := some 50, y := some 50,
         width := some 80, height := some 80, content := none,
         style := some [("backgroundColor", "rgba(0, 0, 0, 0.8)"),
                        ("border", "2px solid #ffffff")] },
       { id := "logo", type := some "image", x := some 60, y := some 60,
         width := some 60, height := some 60,
         content := some "\x7b\x7blogo\x7d\x7d",
         style := some [("objectFit", "contain")] }] }

/-- `setupCustom` (lines 253-294). -/
def setupCustom (t : OGrafTemplate) : OGrafTemplate :=
  { t with
    manifest :=
      { t.manifest with
        stepCount := some 1
        customActions := some
          [⟨"slideIn", "Slide In", "Animate the graphic sliding in"⟩,
           ⟨"slideOut", "Slide Out", "Animate the graphic sliding out"⟩]
        schemaProperties := [("text", ⟨"string", "Text", "Custom Text"⟩)] }
    elements :=
      [{ id := "text", type := some "text", x := some 100, y := some 100,
         width := some 200, height := some 50,
         content := some "\x7b\x7btext\x7d\x7d",
         style := some [("fontSize", "20px"), ("fontFamily", "Arial, sans-serif"),
                        ("color", "#ffffff"), ("textAlign", "left")] }] }

/-- `OGrafTemplate.createFromType` (lines 26-47): a fresh template with id,
name, description set, dispatched on the type token; any unknown token
falls through to `setupCustom`. -/
def createFromType (ty id name description : String) : OGrafTemplate :=
  let t : OGrafTemplate :=
    { newTemplate with
      manifest := { newTemplate.manifest with
                    id := id
                    name := name
                    description := description } }
  match ty with
  | "lower-third" => setupLowerThird t
  | "title" => setupTitle t
  | "bug" => setupBug t
  | _ => setupCustom t

/-! ## Model mutators (OGrafTemplate.js lines 296-328) -/

/-- JS object property assignment `obj[k] = v`: overwrite an existing key
in place, else append. -/
def upsertAssoc {α : Type} (l : List (String × α)) (k : String) (v : α) :
    List (String × α) :=
  match l with
  | [] => [(k, v)]
  | p :: rest => if p.1 = k then (k, v) :: rest else p :: upsertAssoc rest k v

/-- `addProperty` (lines 296-302). -/
def addProperty (t : OGrafTemplate) (name ty title dflt : String) : OGrafTemplate :=
  let props := upsertAssoc t.manifest.schemaProperties name ⟨ty, title, dflt⟩
  { t with manifest := { t.manifest with schemaProperties := props } }

/-- `removeProperty` (lines 304-306): JS `delete`. -/
def removeProperty (t : OGrafTemplate) (name : String) : OGrafTemplate :=
  let props := t.manifest.schemaProperties.filter (fun p => p.1 ≠ name)
  { t with manifest := { t.manifest with schemaProperties := props } }

/-- The element pushed by `addElement` (lines 308-313): the object literal
spreads the caller's spec over a generated `element_<Date.now()>` id, so a
caller-supplied id overrides the generated one.  `Date.now()` is passed in
as `now`. -/
def elementOfSpec (now : Nat) (spec : ElementSpec) : Element :=
  { id := spec.id.getD ("element_" ++ toString now)
    type := spec.type
    x := spec.x
    y := spec.y
    width := spec.width
    height := spec.height
    content := spec.content
    style := spec.style }

/-- `addElement` (lines 308-313). -/
def addElement (now : Nat) (t : OGrafTemplate) (spec : ElementSpec) : OGrafTemplate :=
  { t with elements := t.elements ++ [elementOfSpec now spec] }

/-- `removeElement` (lines 315-317). -/
def removeElement (t : OGrafTemplate) (elementId : String) : OGrafTemplate :=
  { t with elements := t.elements.filter (fun el => el.id ≠ elementId) }

/-- `getElementById` (lines 319-321). -/
def getElementById (t : OGrafTemplate) (elementId : String) : Option Element :=
  t.elements.find? (fun el => el.id == elementId)

/-- `Object.assign(element, updates)`: fields present in the spec overwrite
the element's fields. -/
def assignUpdates (e : Element) (u : ElementSpec) : Element :=
  { id := u.id.getD e.id
    type := match u.type with | some v => some v | none => e.type
    x := match u.x with | some v => some v | none => e.x
    y := match u.y with | some v => some v | none => e.y
    width := match u.width with | some v => some v | none => e.width
    height := match u.height with | some v => some v | none => e.height
    content := match u.content with | some v => some v | none => e.content
    style := match u.style with | some v => some v | none => e.style }

/-- `updateElement` (lines 323-328) updates the first element found with the
given id, and is a silent no-op when none matches. -/
def updateFirst (elementId : String) (u : ElementSpec) : List Element → List Element
  | [] => []
  | e :: rest =>
    if e.id = elementId then assignUpdates e u :: rest
    else e :: updateFirst elementId u rest

/-- `updateElement` (lines 323-328). -/
def updateElement (t : OGrafTemplate) (elementId : String) (u : ElementSpec) :
    OGrafTemplate :=
  { t with elements := updateFirst elementId u t.elements }

/-! ## Code generator (OGrafTemplate.js lines 330-589)

`JSON.stringify` is embedded for the data that the generator serializes:
element objects (field order as constructed by the presets and
`addElement`: id, type, x, y, width, height, content, style, with absent
fields omitted) and animation-settings objects (field order as constructed
by PropertyPanel.js).  String escaping covers backslash and double quote;
control characters do not occur in the embedded data. -/

/-- JSON escaping of one character (code points 92 and 34 are backslash and
double quote). -/
def jsonEscapeChar (c : Char) : String :=
  if c.toNat = 92 then "\\\\"
  else if c.toNat = 34 then "\\\""
  else String.mk [c]

/-- JSON escaping of a string body. -/
def jsonEscape (s : String) : String :=
  String.join (s.data.map jsonEscapeChar)

/-- A JSON string literal. -/
def jsonStr (s : String) : String := "\"" ++ jsonEscape s ++ "\""

/-- `JSON.stringify` of a style map. -/
def jsonOfStyle (st : List (String × String)) : String :=
  "\x7b" ++ String.intercalate "," (st.map (fun p => jsonStr p.1 ++ ":" ++ jsonStr p.2))
    ++ "\x7d"

/-- `JSON.stringify` of one element object. -/
def jsonOfElement (e : Element) : String :=
  let fields :=
    ["\"id\":" ++ jsonStr e.id]
    ++ (match e.type with | some v => ["\"type\":" ++ jsonStr v] | none => [])
    ++ (match e.x with | some v => ["\"x\":" ++ toString v] | none => [])
    ++ (match e.y with | some v => ["\"y\":" ++ toString v] | none => [])
    ++ (match e.width with | some v => ["\"width\":" ++ toString v] | none => [])
    ++ (match e.height with | some v => ["\"height\":" ++ toString v] | none => [])
    ++ (match e.content with | some v => ["\"content\":" ++ jsonStr v] | none => [])
    ++ (match e.style with | some v => ["\"style\":" ++ jsonOfStyle v] | none => [])
  "\x7b" ++ String.intercalate "," fields ++ "\x7d"

/-- `JSON.stringify(this.elements)` (line 349). -/
def jsonOfElements (l : List Element) : String :=
  "[" ++ String.intercalate "," (l.map jsonOfElement) ++ "]"

/-- `JSON.stringify(this.animationSettings || \x7b\x7d)` (line 350). -/
def jsonOfSettings : Option AnimationSettings → String
  | none => "\x7b\x7d"
  | some a =>
    "\x7b\"slideInDuration\":" ++ toString a.slideInDuration
      ++ ",\"slideOutDuration\":" ++ toString a.slideOutDuration
      ++ ",\"slideInType\":" ++ jsonStr a.slideInType
      ++ ",\"slideOutType\":" ++ jsonStr a.slideOutType
      ++ ",\"slideInDirection\":" ++ jsonStr a.slideInDirection
      ++ ",\"slideOutDirection\":" ++ jsonStr a.slideOutDirection
      ++ "\x7d"

/-- `generateElementStyles` (lines 330-338). -/
def generateElementStyles (elements : List Element) : String :=
  String.intercalate "\n" (elements.map (fun e =>
    let styles := String.intercalate " "
      ((e.style.getD []).map (fun p => kebabCase p.1 ++ ": " ++ p.2 ++ ";"))
    ".element-" ++ e.id ++ " \x7b " ++ styles ++ " \x7d"))

/-! The constant text of the component template literal (lines 352-580),
split at its five generation-time interpolations.  Curly braces, single
quotes and backticks of the JavaScript text are written with `\xNN`
escapes. -/

def componentPart0 : String :=
  "\nclass "

def componentPart1 : String :=
  "Graphic extends HTMLElement \x7b\n    constructor() \x7b\n        super();\n" ++
  "        this.attachShadow(\x7b mode: \x27open\x27 \x7d);\n        this.data = \x7b\x7d;\n" ++
  "        this.isVisible = false;\n        this.elements = "

def componentPart2 : String :=
  ";\n        this.animationSettings = "

def componentPart3 : String :=
  ";\n        this.elementStyles = \x60"

def componentPart4 : String :=
  "\x60;\n    \x7d\n\n    connectedCallback() \x7b\n        this.render();\n    \x7d\n\n" ++
  "    async load() \x7b\n        this.isVisible = false;\n        this.render();\n" ++
  "        return Promise.resolve();\n    \x7d\n\n    async dispose() \x7b\n" ++
  "        this.isVisible = false;\n        this.shadowRoot.innerHTML = \x27\x27;\n" ++
  "        return Promise.resolve();\n    \x7d\n\n" ++
  "    async playAction(skipAnimation = false) \x7b\n        this.isVisible = true;\n" ++
  "        this.render();\n        \n        if (!skipAnimation) \x7b\n" ++
  "            // Wait for render to complete before starting animation\n" ++
  "            await new Promise(resolve => requestAnimationFrame(resolve));\n" ++
  "            // Trigger slide-in animation for lower third\n" ++
  "            await this.customAction(\x27slideIn\x27);\n        \x7d\n        \n" ++
  "        return Promise.resolve();\n    \x7d\n\n" ++
  "    async stopAction(skipAnimation = false) \x7b\n        if (!skipAnimation) \x7b\n" ++
  "            // Trigger slide-out animation before hiding\n" ++
  "            await this.customAction(\x27slideOut\x27);\n        \x7d\n        \n" ++
  "        this.isVisible = false;\n        \n" ++
  "        // Completely clear the shadow DOM - back to empty state\n" ++
  "        this.shadowRoot.innerHTML = \x27\x27;\n        return Promise.resolve();\n" ++
  "    \x7d\n\n    async updateAction(data) \x7b\n" ++
  "        this.data = \x7b ...this.data, ...data \x7d;\n        this.render();\n" ++
  "        return Promise.resolve();\n    \x7d\n\n    async customAction(action, data) \x7b\n" ++
  "        switch (action) \x7b\n            case \x27slideIn\x27:\n" ++
  "                return this.animateSlideIn();\n            case \x27slideOut\x27:\n" ++
  "                return this.animateSlideOut();\n            default:\n" ++
  "                return Promise.resolve();\n        \x7d\n    \x7d\n    \n" ++
  "    animateSlideIn() \x7b\n        return new Promise((resolve) => \x7b\n" ++
  "            const settings = this.animationSettings || \x7b\n" ++
  "                slideInDuration: 500,\n                slideInType: \x27ease-out\x27,\n" ++
  "                slideInDirection: \x27left\x27\n            \x7d;\n            \n" ++
  "            const elements = this.shadowRoot.querySelectorAll(\x27.element\x27);\n" ++
  "            if (elements.length === 0) \x7b\n                resolve();\n" ++
  "                return;\n            \x7d\n            \n" ++
  "            const duration = settings.slideInDuration;\n" ++
  "            const timing = settings.slideInType;\n" ++
  "            const direction = settings.slideInDirection;\n            \n" ++
  "            let transform = \x27\x27;\n            switch (direction) \x7b\n" ++
  "                case \x27left\x27: transform = \x27translateX(-100%)\x27; break;\n" ++
  "                case \x27right\x27: transform = \x27translateX(100%)\x27; break;\n" ++
  "                case \x27top\x27: transform = \x27translateY(-100%)\x27; break;\n" ++
  "                case \x27bottom\x27: transform = \x27translateY(100%)\x27; break;\n" ++
  "                default: transform = \x27translateX(-100%)\x27;\n            \x7d\n" ++
  "            \n            elements.forEach(element => \x7b\n" ++
  "                // Set initial position before animation\n" ++
  "                element.style.transform = transform;\n" ++
  "                element.style.transition = \x27none\x27;\n            \x7d);\n" ++
  "            \n            // Force a reflow to ensure the initial transform is applied\n" ++
  "            this.shadowRoot.offsetHeight;\n            \n" ++
  "            elements.forEach(element => \x7b\n" ++
  "                element.style.transition = \x60transform $\x7bduration\x7dms $\x7btiming\x7d\x60;\n" ++
  "                \n                // Trigger animation\n" ++
  "                requestAnimationFrame(() => \x7b\n" ++
  "                    element.style.transform = \x27translateX(0) translateY(0)\x27;\n" ++
  "                \x7d);\n            \x7d);\n            \n" ++
  "            // Resolve after animation completes\n" ++
  "            setTimeout(resolve, duration);\n        \x7d);\n    \x7d\n    \n" ++
  "    animateSlideOut() \x7b\n        return new Promise((resolve) => \x7b\n" ++
  "            const settings = this.animationSettings || \x7b\n" ++
  "                slideOutDuration: 500,\n                slideOutType: \x27ease-in\x27,\n" ++
  "                slideOutDirection: \x27left\x27\n            \x7d;\n            \n" ++
  "            const elements = this.shadowRoot.querySelectorAll(\x27.element\x27);\n" ++
  "            if (elements.length === 0) \x7b\n                resolve();\n" ++
  "                return;\n            \x7d\n            \n" ++
  "            const duration = settings.slideOutDuration;\n" ++
  "            const timing = settings.slideOutType;\n" ++
  "            const direction = settings.slideOutDirection || settings.slideInDirection || \x27left\x27;\n" ++
  "            \n            let transform = \x27\x27;\n            switch (direction) \x7b\n" ++
  "                case \x27left\x27: transform = \x27translateX(-100%)\x27; break;\n" ++
  "                case \x27right\x27: transform = \x27translateX(100%)\x27; break;\n" ++
  "                case \x27top\x27: transform = \x27translateY(-100%)\x27; break;\n" ++
  "                case \x27bottom\x27: transform = \x27translateY(100%)\x27; break;\n" ++
  "                default: transform = \x27translateX(-100%)\x27;\n            \x7d\n" ++
  "            \n            elements.forEach(element => \x7b\n" ++
  "                element.style.transition = \x60transform $\x7bduration\x7dms $\x7btiming\x7d\x60;\n" ++
  "                element.style.transform = transform;\n            \x7d);\n            \n" ++
  "            // Resolve after animation completes\n" ++
  "            setTimeout(resolve, duration);\n        \x7d);\n    \x7d\n\n" ++
  "    render() \x7b\n        const style = \x60\n            <style>\n" ++
  "                :host \x7b\n                    display: block;\n" ++
  "                    position: relative;\n                    width: 1920px;\n" ++
  "                    height: 1080px;\n                    font-family: Arial, sans-serif;\n" ++
  "                    overflow: hidden;\n                \x7d\n" ++
  "                .element \x7b\n                    position: absolute;\n" ++
  "                \x7d\n                $\x7bthis.elementStyles\x7d\n            </style>\n" ++
  "        \x60;\n\n" ++
  "        const elements = this.elements.map(element => this.renderElement(element)).join(\x27\x27);\n" ++
  "\n        this.shadowRoot.innerHTML = \x60\n            $\x7bstyle\x7d\n" ++
  "            <div class=\"container\">\n                $\x7belements\x7d\n" ++
  "            </div>\n        \x60;\n    \x7d\n\n    renderElement(element) \x7b\n" ++
  "        const content = this.interpolateContent(element.content || \x27\x27);\n" ++
  "        const baseStyles = \x60left: $\x7belement.x\x7dpx; top: $\x7belement.y\x7dpx; width: $\x7belement.width\x7dpx; height: $\x7belement.height\x7dpx;\x60;\n" ++
  "        \n        // Convert element.style object to CSS string\n" ++
  "        const additionalStyles = element.style ? Object.entries(element.style)\n" ++
  "            .map(([key, value]) => \x60$\x7bthis.kebabCase(key)\x7d: $\x7bvalue\x7d;\x60)\n" ++
  "            .join(\x27 \x27) : \x27\x27;\n        \n" ++
  "        const allStyles = baseStyles + \x27 \x27 + additionalStyles;\n        \n" ++
  "        switch (element.type) \x7b\n            case \x27text\x27:\n" ++
  "                return \x60<div class=\"element element-$\x7belement.id\x7d\" style=\"$\x7ballStyles\x7d\">$\x7bcontent\x7d</div>\x60;\n" ++
  "            case \x27image\x27:\n" ++
  "                return \x60<img class=\"element element-$\x7belement.id\x7d\" src=\"$\x7bcontent\x7d\" style=\"$\x7ballStyles\x7d\" />\x60;\n" ++
  "            case \x27rect\x27:\n            case \x27rectangle\x27:\n" ++
  "                return \x60<div class=\"element element-$\x7belement.id\x7d\" style=\"$\x7ballStyles\x7d\"></div>\x60;\n" ++
  "            case \x27circle\x27:\n" ++
  "                const circleStyles = allStyles + \x27 border-radius: 50%;\x27;\n" ++
  "                return \x60<div class=\"element element-$\x7belement.id\x7d\" style=\"$\x7bcircleStyles\x7d\"></div>\x60;\n" ++
  "            default:\n                return \x27\x27;\n        \x7d\n    \x7d\n\n" ++
  "    interpolateContent(content) \x7b\n" ++
  "        const result = content.replace(/\\\x7b\\\x7b(\\w+)\\\x7d\\\x7d/g, (match, key) => \x7b\n" ++
  "            const value = this.data[key] || match;\n            return value;\n" ++
  "        \x7d);\n        return result;\n    \x7d\n\n    kebabCase(str) \x7b\n" ++
  "        return str.replace(/([a-z0-9]|(?=[A-Z]))([A-Z])/g, \x27$1-$2\x27).toLowerCase();\n" ++
  "    \x7d\n\x7d\n\n"

/-- The artifact's self-registration statement (line 579):
`customElements.define('<id>-graphic', <PascalCase id>Graphic);`, emitted
unconditionally at the artifact's top level. -/
def registrationCall (id : String) : String :=
  "customElements.define(\x27" ++ id ++ "-graphic\x27, " ++ toCamelCase id
    ++ "Graphic);"

/-- The full template literal `componentCode` (lines 352-580). -/
def componentCode (m : Manifest) (els : List Element)
    (anim : Option AnimationSettings) : String :=
  componentPart0 ++ toCamelCase m.id ++ componentPart1 ++ jsonOfElements els
    ++ componentPart2 ++ jsonOfSettings anim ++ componentPart3
    ++ generateElementStyles els ++ componentPart4 ++ registrationCall m.id
    ++ "\n        "

/-- `generateWebComponent` (lines 344-584): derives the artifact text from
the manifest, the element list and the animation settings, trims it, caches
it in `webComponent` and returns it. -/
def generateWebComponent (t : OGrafTemplate) : String × OGrafTemplate :=
  let code := (componentCode t.manifest t.elements t.animationSettings).trim
  (code, { t with webComponent := some code })

/-! ## Serialization (OGrafTemplate.js lines 591-605) -/

/-- The object returned by `toJSON` (lines 591-597). -/
structure TemplateJSON where
  manifest : Manifest
  elements : List Element
  webComponent : Option String
deriving DecidableEq

/-- `toJSON` (lines 591-597). -/
def toJSON (t : OGrafTemplate) : TemplateJSON :=
  { manifest := t.manifest, elements := t.elements, webComponent := t.webComponent }

/-- `fromJSON` (lines 599-605): a fresh template whose manifest, elements
and cached artifact are overwritten from the serialized object. -/
def fromJSON (j : TemplateJSON) : OGrafTemplate :=
  { newTemplate with
    manifest := j.manifest
    elements := j.elements
    webComponent := j.webComponent }

/-! ## Custom-element registry (browser `customElements`) and loaders -/

/-- `customElements.define`: registering a tag that is already present
throws; the error carries the offending tag. -/
def defineTag (registry : List String) (tag : String) : Except String (List String) :=
  if tag ∈ registry then Except.error tag else Except.ok (tag :: registry)

/-- Executing the generated artifact's top level: the class declaration
followed by the single unconditional `registrationCall` (line 579), an
unguarded `customElements.define` of the tag `<manifest.id>-graphic`. -/
def loadArtifact (t : OGrafTemplate) (registry : List String) :
    Except String (List String) :=
  defineTag registry (t.manifest.id ++ "-graphic")

/-- PropertyPanel.createPreviewComponent (PropertyPanel.js lines 790-816):
the preview loader executes the artifact only when `customElements.get`
finds no existing registration for the tag. -/
def createPreviewComponent (t : OGrafTemplate) (registry : List String) :
    Except String (List String) :=
  if (t.manifest.id ++ "-graphic") ∈ registry then Except.ok registry
  else loadArtifact t registry

/-- CodeEditor.updateComponentEditor (CodeEditor.js lines 134-140): reads
the artifact text, re-running the generator only when the cache is empty
(`!template.webComponent`, which is true for `null` and for the empty
string), and otherwise returning the cached text with the template
untouched. -/
def readArtifact (t : OGrafTemplate) : String × OGrafTemplate :=
  match t.webComponent with
  | some code => if code = "" then generateWebComponent t else (code, t)
  | none => generateWebComponent t

/-! ## Generated-component runtime (the class in the template, lines 352-577)

The asynchronous lifecycle of the generated component is embedded as a
small-step machine.  State observable to the claims: the runtime data map
(`this.data`), the visibility flag (`this.isVisible`), the number of
rendered `.element` nodes in the shadow DOM (`render` writes all elements
regardless of visibility, `innerHTML = ''` clears them), and the list of
pending `setTimeout` callbacks in scheduling order.  Each pending timer
carries its delay and the continuation that runs when it fires:

* `Eff.stopFinish` — the rest of `stopAction` after
  `await this.customAction('slideOut')` (lines 399-404): set
  `isVisible = false` and clear the shadow DOM.  This continuation is
  suspended on the `setTimeout(resolve, duration)` of `animateSlideOut`
  (line 507).
* `Eff.playFinish` — the rest of `playAction` after
  `await this.customAction('slideIn')` (line 391): only the completion
  signal, no further state change.  Suspended on the
  `setTimeout(resolve, duration)` of `animateSlideIn` (line 470); the
  intermediate `requestAnimationFrame` wait (line 386) only defers the
  animation start and is folded into the same pending callback, since it
  schedules no state change of its own.

The machine is parameterized by the number of elements embedded in the
component (`nElems`) and the relevant configured duration.  Nothing in the
generated code ever cancels a pending timer (`clearTimeout` does not occur
in the repository). -/

/-- Continuations of pending timers. -/
inductive Eff where
  | stopFinish
  | playFinish
deriving DecidableEq

/-- A pending `setTimeout` callback. -/
structure PendingTimer where
  delay : Nat
  eff : Eff
deriving DecidableEq

/-- Runtime state of one generated-component instance. -/
structure RuntimeState where
  data : List (String × String)
  visible : Bool
  dom : Nat
  timers : List PendingTimer
deriving DecidableEq

/-- The constructor (lines 354-362): empty data map, hidden, empty shadow
DOM, no pending callbacks. -/
def initialState : RuntimeState :=
  { data := [], visible := false, dom := 0, timers := [] }

/-- `render` (lines 511-537): writes all embedded elements into the shadow
DOM; it does not look at `isVisible`. -/
def render (nElems : Nat) (s : RuntimeState) : RuntimeState :=
  { s with dom := nElems }

/-- `load` (lines 368-372): `isVisible = false`, re-render, resolve. -/
def load (nElems : Nat) (s : RuntimeState) : RuntimeState :=
  render nElems { s with visible := false }

/-- `dispose` (lines 374-378): hide and clear the shadow DOM. -/
def dispose (s : RuntimeState) : RuntimeState :=
  { s with visible := false, dom := 0 }

/-- `playAction` (lines 380-392): show and render; when not skipping,
`animateSlideIn` (lines 424-472) resolves immediately if the shadow DOM
has no `.element` nodes, and otherwise schedules its
`setTimeout(resolve, slideInDuration)` — without cancelling anything. -/
def playAction (nElems slideInDur : Nat) (skip : Bool) (s : RuntimeState) :
    RuntimeState :=
  let s1 := render nElems { s with visible := true }
  if skip then s1
  else if s1.dom = 0 then s1
  else { s1 with timers := s1.timers ++ [⟨slideInDur, Eff.playFinish⟩] }

/-- `stopAction` (lines 394-405): when skipping, hide and clear at once;
otherwise `animateSlideOut` (lines 474-509) resolves immediately if the
shadow DOM has no `.element` nodes (so the continuation hides and clears
at once), and otherwise schedules its `setTimeout(resolve,
slideOutDuration)` whose continuation will hide and clear — again without
cancelling anything. -/
def stopAction (slideOutDur : Nat) (skip : Bool) (s : RuntimeState) :
    RuntimeState :=
  if skip then { s with visible := false, dom := 0 }
  else if s.dom = 0 then { s with visible := false, dom := 0 }
  else { s with timers := s.timers ++ [⟨slideOutDur, Eff.stopFinish⟩] }

/-- `updateAction` (lines 407-411): spread-merge the update into the data
map and re-render. -/
def updateAction (nElems : Nat) (updates : List (String × String))
    (s : RuntimeState) : RuntimeState :=
  render nElems
    { s with data := updates.foldl (fun d p => upsertAssoc d p.1 p.2) s.data }

/-- Running a pending timer's continuation. -/
def applyEff : Eff → RuntimeState → RuntimeState
  | Eff.stopFinish, s => { s with visible := false, dom := 0 }
  | Eff.playFinish, s => s

/-- The event loop fires pending timer `i`: it is removed from the pending
list and its continuation runs.  Firing a non-existent timer is a no-op. -/
def fireTimer (i : Nat) (s : RuntimeState) : RuntimeState :=
  match s.timers.get? i with
  | some tm => applyEff tm.eff { s with timers := s.timers.eraseIdx i }
  | none => s

/-- The element spec with every field absent. -/
def emptySpec : ElementSpec := {}

/-- The lower-third example template after `generateWebComponent`, so with
a cached artifact text. -/
def cachedLowerThird : OGrafTemplate :=
  (generateWebComponent (createFromType "lower-third" "x" "Name" "d")).2

/-! ## Helper lemmas -/

/-- The ranges `[a-z0-9]` and `[A-Z]` are disjoint. -/
theorem lowerDigit_not_upper (c : Char) (h : isLowerDigit c = true) :
    c.isUpper = false := by
  unfold isLowerDigit at h
  rcases Bool.or_eq_true_iff.mp h with h1 | h1
  · unfold Char.isLower at h1
    unfold Char.isUpper
    rw [Bool.and_eq_true, decide_eq_true_eq, decide_eq_true_eq] at h1
    obtain ⟨ha, hb⟩ := h1
    by_contra hne
    rw [Bool.not_eq_false, Bool.and_eq_true, decide_eq_true_eq,
      decide_eq_true_eq] at hne
    exact absurd (UInt32.le_trans ha hne.2) (by decide)
  · unfold Char.isDigit at h1
    unfold Char.isUpper
    rw [Bool.and_eq_true, decide_eq_true_eq, decide_eq_true_eq] at h1
    obtain ⟨ha, hb⟩ := h1
    by_contra hne
    rw [Bool.not_eq_false, Bool.and_eq_true, decide_eq_true_eq,
      decide_eq_true_eq] at hne
    exact absurd (UInt32.le_trans hne.1 hb) (by decide)

/-- The source's kebab scanner hyphenates before every uppercase letter,
regardless of the preceding character. -/
theorem kebabChars_eq_dashEveryUpper (l : List Char) :
    kebabChars l = dashEveryUpper l := by
  have key : ∀ n (l : List Char), l.length ≤ n →
      kebabChars l = dashEveryUpper l := by
    intro n
    induction n with
    | zero =>
      intro l hl
      have h0 : l = [] := List.length_eq_zero.mp (Nat.le_zero.mp hl)
      subst h0; rfl
    | succ n ih =>
      intro l hl
      match l with
      | [] => rfl
      | [c] => simp [kebabChars, dashEveryUpper]
      | c :: d :: rest =>
        have h1 : rest.length ≤ n := by
          simp only [List.length_cons] at hl; omega
        have h2 : (d :: rest).length ≤ n := by
          simp only [List.length_cons] at hl ⊢; omega
        by_cases hld : isLowerDigit c = true
        · have hcu : c.isUpper = false := lowerDigit_not_upper c hld
          cases hdu : d.isUpper
          · simp [kebabChars, dashEveryUpper, hld, hdu, hcu, ih _ h2]
          · simp [kebabChars, dashEveryUpper, hld, hdu, hcu, ih _ h1, ih _ h2]
        · have hld' : isLowerDigit c = false := by
            cases hx : isLowerDigit c
            · rfl
            · exact absurd hx hld
          cases hcu : c.isUpper
          · simp [kebabChars, dashEveryUpper, hld', hcu, ih _ h2]
          · simp [kebabChars, dashEveryUpper, hld', hcu, ih _ h2]
  exact key l.length l le_rfl

/-! ## Claims -/

/-- C1: the code keeps no handle to its transition timers and cancels
nothing, so a superseded transition's pending timer survives the start of a
successor transition and its continuation still runs.  Evaluated on the
reentrancy scenario with a three-element component and 500 ms durations:
after `load()`, `playAction(true)` (no pending timer), `stopAction(false)`
(schedules the stop timer) and then `playAction(false)` before that timer
fires, the component is visible with the superseded stop timer still
pending next to the new play timer; firing the stop timer then runs the
rest of `stopAction`, hiding the component and wiping the shadow DOM that
the successor `playAction` had just rendered. -/
theorem superseded_stop_timer_fires_after_new_play :
    (playAction 3 500 true (load 3 initialState)).timers = []
    ∧ (playAction 3 500 false (stopAction 500 false
        (playAction 3 500 true (load 3 initialState)))).visible = true
    ∧ (playAction 3 500 false (stopAction 500 false
        (playAction 3 500 true (load 3 initialState)))).timers
      = [⟨500, Eff.stopFinish⟩, ⟨500, Eff.playFinish⟩]
    ∧ (fireTimer 0 (playAction 3 500 false (stopAction 500 false
        (playAction 3 500 true (load 3 initialState))))).visible = false
    ∧ (fireTimer 0 (playAction 3 500 false (stopAction 500 false
        (playAction 3 500 true (load 3 initialState))))).dom = 0 := by
  decide

/-- C2 (counterexample): mutating a template whose artifact is cached does
not invalidate the cache: after `addElement` the cached text is unchanged
and still present although the element list changed, so a read that
regenerates only on an empty cache returns the stale text. -/
theorem addElement_leaves_stale_cache :
    (addElement 0 cachedLowerThird { type := some "text" }).webComponent
      = cachedLowerThird.webComponent
    ∧ cachedLowerThird.webComponent.isSome = true
    ∧ (addElement 0 cachedLowerThird { type := some "text" }).elements
      ≠ cachedLowerThird.elements := by
  refine ⟨rfl, rfl, by decide⟩

/-- C2 (amended): none of the five model mutators touches the cached
artifact text, and the generator is not run inside any of them; with a
non-empty cache in place, the next read returns the cached (now stale)
text without re-running the generator. -/
theorem mutators_do_not_invalidate_cache (t : OGrafTemplate) (now : Nat)
    (spec u : ElementSpec) (eid name ty title dflt c : String)
    (hc : ¬ c = "") (hw : t.webComponent = some c) :
    (addElement now t spec).webComponent = some c
    ∧ (removeElement t eid).webComponent = some c
    ∧ (updateElement t eid u).webComponent = some c
    ∧ (addProperty t name ty title dflt).webComponent = some c
    ∧ (removeProperty t name).webComponent = some c
    ∧ readArtifact (addElement now t spec) = (c, addElement now t spec) := by
  refine ⟨hw, hw, hw, hw, hw, ?_⟩
  have h2 : (addElement now t spec).webComponent = some c := hw
  simp [readArtifact, h2, hc]

/-- Witness for C2 (amended) at a concrete template with cached text "x". -/
theorem mutators_do_not_invalidate_cache_witness :
    (addElement 0 { newTemplate with webComponent := some "x" } emptySpec).webComponent
      = some "x"
    ∧ (removeElement { newTemplate with webComponent := some "x" } "e").webComponent
      = some "x"
    ∧ (updateElement { newTemplate with webComponent := some "x" } "e" emptySpec).webComponent
      = some "x"
    ∧ (addProperty { newTemplate with webComponent := some "x" } "p" "string" "T" "").webComponent
      = some "x"
    ∧ (removeProperty { newTemplate with webComponent := some "x" } "p").webComponent
      = some "x"
    ∧ readArtifact (addElement 0 { newTemplate with webComponent := some "x" } emptySpec)
      = ("x", addElement 0 { newTemplate with webComponent := some "x" } emptySpec) :=
  mutators_do_not_invalidate_cache { newTemplate with webComponent := some "x" }
    0 emptySpec emptySpec "e" "p" "string" "T" "" "x" (by decide) rfl

/-- C3 (counterexample): when the data map holds the empty string for
`name`, the interpolator leaves the placeholder text unchanged instead of
substituting the (empty) value, because the callback tests the value for
JS truthiness. -/
theorem interpolate_keeps_placeholder_for_empty_value :
    interpolateContent (fun k => if k = "name" then some "" else none)
      "\x7b\x7bname\x7d\x7d" = "\x7b\x7bname\x7d\x7d"
    ∧ interpolateContent (fun k => if k = "name" then some "" else none)
      "\x7b\x7bname\x7d\x7d" ≠ "" := by
  refine ⟨by decide, by decide⟩

/-- C3 (amended): the interpolator behaves as the spec's Content
Interpolator applied to the data map restricted to its non-empty values:
every placeholder whose key maps to a non-empty string is replaced by that
value, and a placeholder is left unchanged exactly when its key is absent
or maps to the empty string; it never raises (it is a total function).
The spec's two concrete examples hold as stated. -/
theorem interpolateContent_eq_spec_on_truthy_data
    (data : String → Option String) (content : String) :
    interpolateContent data content
      = interpolateSpecModel (truthyData data) content
    ∧ interpolateContent (fun k => if k = "name" then some "Jane" else none)
        "\x7b\x7bname\x7d\x7d" = "Jane"
    ∧ interpolateContent (fun _ => none) "\x7b\x7bmissing\x7d\x7d"
        = "\x7b\x7bmissing\x7d\x7d" := by
  refine ⟨?_, by decide, by decide⟩
  have h : resolveJs data = resolveSpec (truthyData data) := by
    funext k w
    simp only [resolveJs, resolveSpec, truthyData]
    cases hk : data k with
    | none => rfl
    | some v =>
      by_cases hv : v = ""
      · simp [hv]
      · simp [hv]
  unfold interpolateContent interpolateSpecModel
  rw [h]

/-- Witness for C3 (amended) at a concrete map and content. -/
theorem interpolateContent_eq_spec_on_truthy_data_witness :
    interpolateContent (fun k => if k = "a" then some "V" else none)
        "\x7b\x7ba\x7d\x7d"
      = interpolateSpecModel
          (truthyData (fun k => if k = "a" then some "V" else none))
          "\x7b\x7ba\x7d\x7d"
    ∧ interpolateContent (fun k => if k = "name" then some "Jane" else none)
        "\x7b\x7bname\x7d\x7d" = "Jane"
    ∧ interpolateContent (fun _ => none) "\x7b\x7bmissing\x7d\x7d"
        = "\x7b\x7bmissing\x7d\x7d" :=
  interpolateContent_eq_spec_on_truthy_data
    (fun k => if k = "a" then some "V" else none) "\x7b\x7ba\x7d\x7d"

/-- C4 (counterexample): `load()` does not reset the internal data map:
after an update writes `x = 1`, calling `load` leaves the data map intact
and non-empty. -/
theorem load_does_not_reset_data :
    (load 1 (updateAction 1 [("x", "1")] (load 1 initialState))).data
      = [("x", "1")]
    ∧ ([("x", "1")] : List (String × String)) ≠ ([] : List (String × String)) := by
  decide

/-- C4 (amended): `load()` from any runtime state puts the component in the
hidden state (with the elements re-rendered into the shadow DOM), signals
completion immediately, and calling it twice equals calling it once; it
leaves the internal data map (and the pending-timer list) unchanged rather
than resetting the data map to empty. -/
theorem load_hidden_idempotent_data_preserved (nElems : Nat) (s : RuntimeState) :
    (load nElems s).visible = false
    ∧ (load nElems s).data = s.data
    ∧ (load nElems s).timers = s.timers
    ∧ load nElems (load nElems s) = load nElems s :=
  ⟨rfl, rfl, rfl, rfl⟩

/-- C5 (counterexample): the generated artifact's top level registers its
tag unconditionally, so loading the same artifact a second time into the
same registry attempts a duplicate registration and fails. -/
theorem second_artifact_load_attempts_duplicate_registration :
    loadArtifact (createFromType "lower-third" "x" "Name" "d") []
      = Except.ok ["x-graphic"]
    ∧ loadArtifact (createFromType "lower-third" "x" "Name" "d") ["x-graphic"]
      = Except.error "x-graphic" := by
  refine ⟨rfl, rfl⟩

/-- C5 (amended): the artifact itself contains no registration guard — for
every template, loading it into a registry that already holds its tag
attempts a duplicate registration; idempotent loading is provided one
level up by the preview loader, which consults the registry before
executing the artifact. -/
theorem artifact_registration_unguarded (t : OGrafTemplate) (r : List String) :
    loadArtifact t ((t.manifest.id ++ "-graphic") :: r)
      = Except.error (t.manifest.id ++ "-graphic")
    ∧ createPreviewComponent t ((t.manifest.id ++ "-graphic") :: r)
      = Except.ok ((t.manifest.id ++ "-graphic") :: r) := by
  constructor
  · simp [loadArtifact, defineTag]
  · simp [createPreviewComponent]

/-- C6: the artifact generator is deterministic — its output depends only
on the manifest, the element list and the animation settings, so two
invocations on an unchanged model yield byte-identical text. -/
theorem generateWebComponent_deterministic (t₁ t₂ : OGrafTemplate)
    (hm : t₁.manifest = t₂.manifest) (he : t₁.elements = t₂.elements)
    (ha : t₁.animationSettings = t₂.animationSettings) :
    (generateWebComponent t₁).1 = (generateWebComponent t₂).1 := by
  simp only [generateWebComponent]
  rw [hm, he, ha]

/-- Witness for C6: generating twice in a row on the unchanged lower-third
model yields the identical artifact text. -/
theorem generateWebComponent_deterministic_witness :
    (generateWebComponent
        (generateWebComponent (createFromType "lower-third" "x" "Name" "d")).2).1
      = (generateWebComponent (createFromType "lower-third" "x" "Name" "d")).1 :=
  generateWebComponent_deterministic _ _ rfl rfl rfl

/-- C7 (counterexample): the generator's camelCase→kebab-case conversion
differs from the spec's reference algorithm (hyphen only before an
uppercase letter preceded by a lowercase letter or digit): on the key
"aBC" the code yields "a-b-c" while the reference yields "a-bc". -/
theorem kebabCase_differs_from_spec_algorithm :
    kebabCase "aBC" = "a-b-c"
    ∧ specKebabCase "aBC" = "a-bc"
    ∧ kebabCase "aBC" ≠ specKebabCase "aBC" := by
  refine ⟨by decide, by decide, by decide⟩

/-- C7 (amended): the conversion inserts a hyphen before every uppercase
letter — also at the start of the key and after another uppercase letter —
and then lowercases the whole string; on keys in which every uppercase
letter is preceded by a lowercase letter or digit (such as the spec's
examples) this agrees with the reference algorithm. -/
theorem kebabCase_dashes_every_uppercase (s : String) :
    kebabCase s = String.mk ((dashEveryUpper s.data).map Char.toLower)
    ∧ kebabCase "fontSize" = "font-size"
    ∧ kebabCase "backgroundColor" = "background-color"
    ∧ kebabCase "objectFit" = "object-fit" := by
  refine ⟨?_, by decide, by decide, by decide⟩
  unfold kebabCase
  rw [kebabChars_eq_dashEveryUpper]

/-- Witness for C7 (amended) at the key "fontSize". -/
theorem kebabCase_dashes_every_uppercase_witness :
    kebabCase "fontSize"
      = String.mk ((dashEveryUpper ("fontSize" : String).data).map Char.toLower)
    ∧ kebabCase "fontSize" = "font-size"
    ∧ kebabCase "backgroundColor" = "background-color"
    ∧ kebabCase "objectFit" = "object-fit" :=
  kebabCase_dashes_every_uppercase "fontSize"

/-- C8: serializing a template with `toJSON` and deserializing with
`fromJSON` yields a template equal to the original in its manifest, its
element list and its cached artifact text (including the absent case). -/
theorem fromJSON_toJSON_roundtrip (t : OGrafTemplate) :
    (fromJSON (toJSON t)).manifest = t.manifest
    ∧ (fromJSON (toJSON t)).elements = t.elements
    ∧ (fromJSON (toJSON t)).webComponent = t.webComponent :=
  ⟨rfl, rfl, rfl⟩

/-- C9 (counterexample): the literal preset token "lowerThird" is not the
token the code dispatches on; it falls through to the custom preset, which
has a single element with id "text" and the single schema property "text". -/
theorem createFromType_lowerThird_token_yields_custom :
    (createFromType "lowerThird" "x" "Name" "d").elements.map Element.id = ["text"]
    ∧ (createFromType "lowerThird" "x" "Name" "d").elements.length = 1
    ∧ (createFromType "lowerThird" "x" "Name" "d").manifest.schemaProperties.map
        Prod.fst = ["text"] := by
  decide

/-- C9 (amended): the lower-third preset — token "lower-third" — yields
exactly three elements with ids background, name, title, schema properties
exactly name and title, stepCount 1, and the slideIn/slideOut custom
actions registered. -/
theorem createFromType_lower_third_preset :
    (createFromType "lower-third" "x" "Name" "d").elements.map Element.id
      = ["background", "name", "title"]
    ∧ (createFromType "lower-third" "x" "Name" "d").manifest.schemaProperties.map
        Prod.fst = ["name", "title"]
    ∧ (createFromType "lower-third" "x" "Name" "d").manifest.stepCount = some 1
    ∧ ((createFromType "lower-third" "x" "Name" "d").manifest.customActions.getD
        []).map CustomAction.id = ["slideIn", "slideOut"] := by
  decide

/-- C10: `addElement` appends exactly one element built by spreading the
caller's spec over the generated `element_<now>` id, so a caller-supplied
id is kept verbatim and the generated id is used only when the spec omits
one; in particular adding a spec with id "name" to the lower-third preset
produces a duplicate element id, so `addElement` does not enforce the
element-id uniqueness invariant. -/
theorem addElement_keeps_caller_supplied_id (now : Nat) (t : OGrafTemplate)
    (spec : ElementSpec) :
    (addElement now t spec).elements = t.elements ++ [elementOfSpec now spec]
    ∧ (elementOfSpec now spec).id = spec.id.getD ("element_" ++ toString now)
    ∧ (elementOfSpec now emptySpec).id = "element_" ++ toString now
    ∧ (addElement 7 (createFromType "lower-third" "x" "n" "d")
        { id := some "name" }).elements.map Element.id
      = ["background", "name", "title", "name"] := by
  refine ⟨rfl, rfl, rfl, by decide⟩

end OGraf
